import Mathlib

/-!
Shallow embedding of `src/terragrunt/modules/crates-io/compute-static/src/main.rs`,
the crates.io static-content edge router running on Fastly Compute@Edge.

The embedding mirrors the Rust source function by function.  Network effects
(the two origin sends) are modelled by an explicit oracle
`net : String → Request → Except Error Response` passed to the functions that
call `Request::send`; every send performed is additionally recorded in a
`contacts` trace so that claims about which origins are contacted are statable.
Log emission is modelled by returning the list of events that the invocation
writes to the logging channels.
-/

namespace ComputeStatic

/-- Transport-level error returned by the HTTP client when an origin cannot be
reached (the `Error` type of the Rust `send` call). -/
structure Error where
  msg : String
deriving DecidableEq

/-- URL of a request: scheme, host, path and optional query string, mirroring
the components of the `url::Url` stored in a Fastly `Request`. -/
structure Url where
  scheme : String
  host : String
  path : String
  query : Option String
deriving DecidableEq

/-- Serialization of a `Url` as the `url` crate produces it:
`scheme://host path [?query]`.  This is what `Request::get_url_str` returns. -/
def Url.to_str (u : Url) : String :=
  u.scheme ++ "://" ++ u.host ++ u.path ++
    (match u.query with
     | some q => "?" ++ q
     | none => "")

/-- Inbound HTTP request as used by `main.rs`: method, URL, client address,
headers, the Fastly TTL attribute and an optional body. -/
structure Request where
  method : String
  url : Url
  client_ip : Option String
  headers : List (String × String)
  ttl : Option Nat
  body : Option String
deriving DecidableEq

/-- Mirrors `Request::get_url_str`. -/
def Request.get_url_str (r : Request) : String :=
  r.url.to_str

/-- Mirrors `Request::get_header` as a presence/value lookup (first header with
the given name). -/
def Request.get_header (r : Request) (name : String) : Option String :=
  (r.headers.find? (fun h => h.1 == name)).map (·.2)

/-- Mirrors `Request::clone_without_body`: same request with the body dropped. -/
def Request.clone_without_body (r : Request) : Request :=
  { r with body := none }

/-- HTTP response: status code, headers, body and the content length reported
by `Response::get_content_length` (unknown for streamed bodies). -/
structure Response where
  status : Nat
  headers : List (String × String)
  body : String
  content_length : Option Nat
deriving DecidableEq

/-- Mirrors `Response::from_body` for a plain string body (status defaults to
200 OK, content length is the body length). -/
def Response.from_body (body : String) : Response :=
  { status := 200, headers := [], body := body, content_length := some body.length }

/-- Mirrors `Response::with_status`. -/
def Response.with_status (r : Response) (status : Nat) : Response :=
  { r with status := status }

/-- Mirrors `Response::set_header`: any existing header with the same name is
replaced by the new value. -/
def Response.set_header (r : Response) (name value : String) : Response :=
  { r with headers := r.headers.filter (fun h => h.1 ≠ name) ++ [(name, value)] }

/-- Header lookup on a response (first header with the given name). -/
def Response.get_header (r : Response) (name : String) : Option String :=
  (r.headers.find? (fun h => h.1 == name)).map (·.2)

/-- Mirrors `Response::temporary_redirect`: an HTTP 307 response whose
`Location` header is the given URL. -/
def Response.temporary_redirect (url : String) : Response :=
  { status := 307, headers := [("Location", url)], body := "", content_length := some 0 }

/-- Modelled from the spec: the `Config` struct (`config.rs` is not under
`src/`).  Immutable snapshot with the cache TTL, the primary and fallback
origin hosts, the CloudFront distribution host and the two log endpoints. -/
structure Config where
  static_ttl : Nat
  primary_host : String
  fallback_host : String
  cloudfront_url : String
  request_logs_endpoint : String
  service_logs_endpoint : String
deriving DecidableEq

/-- Boolean counterpart of Rust `str::ends_with`, on the character sequence. -/
def ends_with (s suffix : String) : Bool :=
  suffix.toList.isSuffixOf s.toList

/-- Network oracle: the behaviour of the HTTP transport, indexed by backend
host.  `Request::send(host)` either returns a response or fails with a
transport error. -/
def Net : Type :=
  String → Request → Except Error Response

instance {ε α : Type} [DecidableEq ε] [DecidableEq α] : DecidableEq (Except ε α)
  | .ok x, .ok y => decidable_of_iff (x = y) (by simp)
  | .error x, .error y => decidable_of_iff (x = y) (by simp)
  | .ok _, .error _ => isFalse (by simp)
  | .error _, .ok _ => isFalse (by simp)

/-- Result of the origin-selection logic: the response (or transport error)
together with the trace of origin hosts contacted, in order, and the warning
lines written by `warn!` along the way. -/
structure SendOutcome where
  response : Except Error Response
  contacts : List String
  warnings : List String
deriving DecidableEq

/-- Mirrors `send_request_to_s3`.  The clone without body is sent to the
primary host; the `?` on that send propagates a transport error immediately.
Only a status code ≥ 500 from the primary triggers the single fallback send,
whose outcome (response or transport error) is returned as-is. -/
def send_request_to_s3 (config : Config) (net : Net) (request : Request) : SendOutcome :=
  let primary_request := request.clone_without_body
  match net config.primary_host primary_request with
  | .error e => ⟨.error e, [config.primary_host], []⟩
  | .ok response =>
    let status_code := response.status
    if 500 ≤ status_code then
      let warning := "Request to host " ++ config.primary_host ++
        " returned status code " ++ toString status_code
      let fallback_request := request.clone_without_body
      match net config.fallback_host fallback_request with
      | .error e => ⟨.error e, [config.primary_host, config.fallback_host], [warning]⟩
      | .ok fallback_response =>
        ⟨.ok fallback_response, [config.primary_host, config.fallback_host], [warning]⟩
    else
      ⟨.ok response, [config.primary_host], []⟩

/-- Mirrors `limit_http_methods`: any method other than GET and HEAD receives
a synthesized 401 response with body "Method not allowed". -/
def limit_http_methods (request : Request) : Option Response :=
  let method := request.method
  if method ≠ "GET" ∧ method ≠ "HEAD" then
    some ((Response.from_body "Method not allowed").with_status 401)
  else
    none

/-- Mirrors `set_ttl`: stamps the configured static TTL onto the request. -/
def set_ttl (config : Config) (request : Request) : Request :=
  { request with ttl := some config.static_ttl }

/-- Character-level substitution used by `path.replace('+', "%2B")`: each `+`
becomes the three characters `%2B`, every other character is kept. -/
def replace_plus : List Char → List Char
  | [] => []
  | c :: rest => (if c = '+' then ['%', '2', 'B'] else [c]) ++ replace_plus rest

/-- Mirrors `rewrite_urls_with_plus_character`: if the URL path contains a
literal `+`, every occurrence is replaced by `%2B` and the path is rewritten
in place; otherwise the request is untouched. -/
def rewrite_urls_with_plus_character (request : Request) : Request :=
  let path := request.url.path
  if path.toList.contains '+' then
    let new_path : String := ⟨replace_plus path.toList⟩
    { request with url := { request.url with path := new_path } }
  else
    request

/-- Mirrors `redirect_db_dump_to_cloudfront`: a 307 redirect to the database
dump on the configured CloudFront distribution. -/
def redirect_db_dump_to_cloudfront (config : Config) : Except Error Response :=
  .ok (Response.temporary_redirect ("https://" ++ config.cloudfront_url ++ "/db-dump.tar.gz"))

/-- Mirrors `handle_request`: method filtering, TTL stamping, plus-character
rewriting, then either the db-dump redirect (decided on the full URL string)
or the forward to S3. -/
def handle_request (config : Config) (net : Net) (request : Request) : SendOutcome :=
  match limit_http_methods request with
  | some response => ⟨.ok response, [], []⟩
  | none =>
    let request := set_ttl config request
    let request := rewrite_urls_with_plus_character request
    if ends_with request.get_url_str "db-dump.tar.gz" then
      ⟨redirect_db_dump_to_cloudfront config, [], []⟩
    else
      send_request_to_s3 config net request

/-- Mirrors `add_cors_headers`: on a successful response the three CORS
headers are set; on a transport error nothing happens. -/
def add_cors_headers (response : Except Error Response) : Except Error Response :=
  match response with
  | .ok response =>
    .ok (((response.set_header "Access-Control-Allow-Origin" "*").set_header
        "Access-Control-Allow-Methods" "GET").set_header "Access-Control-Max-Age" "3000")
  | .error e => .error e

/-- Modelled from the spec: the `LogLineV1` record (`log_line.rs` is not under
`src/`): timestamp, URL string, client IP, and the nullable method, byte count
and status code. -/
structure LogLineV1 where
  date_time : Nat
  url : String
  ip : Option String
  method : Option String
  bytes : Option Nat
  status : Option Nat
deriving DecidableEq

/-- Modelled from the spec: the versioned log record, with exactly one active
schema version. -/
inductive LogLine where
  | V1 (line : LogLineV1)
deriving DecidableEq

/-- Modelled from the spec: the derive-builder style builder for `LogLineV1`.
Each field is unset until its setter is called. -/
structure LogLineV1Builder where
  date_time : Option Nat := none
  url : Option String := none
  ip : Option (Option String) := none
  method : Option (Option String) := none
  bytes : Option (Option Nat) := none
  status : Option (Option Nat) := none
deriving DecidableEq

/-- Modelled from the spec: `LogLineV1Builder::build` fails when a required
field was never set (the byte count defaults to null when unset, matching the
transport-failure log record that carries a null bytes field). -/
def LogLineV1Builder.build (b : LogLineV1Builder) : Except String LogLineV1 :=
  match b.date_time, b.url, b.ip, b.method, b.status with
  | some date_time, some url, some ip, some method, some status =>
    .ok ⟨date_time, url, ip, method, b.bytes.getD none, status⟩
  | _, _, _, _, _ => .error "uninitialized field"

/-- Events written to the logging channels: a serialized request-log line on
the request-log endpoint, a serialization-failure warning on the service-log
channel, or an origin warning (the `warn!` inside `send_request_to_s3`). -/
inductive LogEvent where
  | requestLog (endpoint : String) (line : LogLine)
  | serializationWarning (msg : String)
  | originWarning (msg : String)
deriving DecidableEq

/-- Predicate for the two event kinds produced by `build_and_send_log`. -/
def LogEvent.isFinalRecord : LogEvent → Bool
  | .requestLog _ _ => true
  | .serializationWarning _ => true
  | .originWarning _ => false

/-- Mirrors `collect_request`: the request-phase fields of the log builder
(timestamp, URL string, client IP, method), set before the pipeline runs. -/
def collect_request (now : Nat) (request : Request) : LogLineV1Builder :=
  { date_time := some now
    url := some request.get_url_str
    ip := some request.client_ip
    method := some (some request.method) }

/-- Mirrors `collect_response`: on a successful response record its content
length and status code; on a transport error record status 500 (the byte
count stays unset). -/
def collect_response (log_line : LogLineV1Builder) (response : Except Error Response) :
    LogLineV1Builder :=
  match response with
  | .ok response =>
    { log_line with
      bytes := some response.content_length
      status := some (some response.status) }
  | .error _ => { log_line with status := some (some 500) }

/-- Mirrors `build_and_send_log`: finalize the builder; on success emit the
versioned record to the request-log endpoint, on failure emit a warning. -/
def build_and_send_log (log_line : LogLineV1Builder) (config : Config) : LogEvent :=
  match log_line.build with
  | .ok log => .requestLog config.request_logs_endpoint (LogLine.V1 log)
  | .error error => .serializationWarning ("failed to serialize request log: " ++ error)

/-- Observable outcome of one invocation of the edge handler: the response
returned to the client, the trace of origin hosts contacted, and the events
written to the logging channels. -/
structure Invocation where
  response : Except Error Response
  contacts : List String
  emitted : List LogEvent
deriving DecidableEq

/-- Mirrors `main`.  PURGE requests are forwarded straight to
`send_request_to_s3` with no logging (the logger is never initialized on that
path, so even the origin warning is dropped).  Every other request runs the
pipeline: collect the request-phase log fields, handle the request, apply CORS
when the inbound request carried an `Origin` header, collect the
response-phase log fields and emit exactly one final log event. -/
def main (config : Config) (net : Net) (now : Nat) (request : Request) : Invocation :=
  if request.method = "PURGE" then
    let outcome := send_request_to_s3 config net request
    ⟨outcome.response, outcome.contacts, []⟩
  else
    let log := collect_request now request
    let has_origin_header := (request.get_header "Origin").isSome
    let outcome := handle_request config net request
    let response :=
      if has_origin_header then add_cors_headers outcome.response else outcome.response
    let log := collect_response log response
    ⟨response, outcome.contacts,
      outcome.warnings.map LogEvent.originWarning ++ [build_and_send_log log config]⟩

/-! Concrete fixtures used by counterexamples and witnesses. -/

def cfgA : Config :=
  ⟨3600, "primary-host", "fallback-host", "cloudfront.example", "requests", "service"⟩

def resp200 : Response := ⟨200, [], "", some 0⟩

def resp503 : Response := ⟨503, [], "", some 0⟩

def netOk : Net := fun _ _ => .ok resp200

def netPrimaryDown : Net := fun host _ =>
  if host = "primary-host" then .error ⟨"connection reset"⟩ else .ok resp200

def netPrimary503 : Net := fun host _ =>
  if host = "primary-host" then .ok resp503 else .ok resp200

def reqCrate : Request :=
  ⟨"GET", ⟨"https", "static.crates.io", "/crates/foo/foo-1.0.0.crate", none⟩,
    some "10.0.0.1", [], none, none⟩

def reqPost : Request :=
  ⟨"POST", ⟨"https", "static.crates.io", "/crates/foo/foo-1.0.0.crate", none⟩,
    some "10.0.0.1", [], none, none⟩

def reqPurge : Request :=
  ⟨"PURGE", ⟨"https", "static.crates.io", "/crates/foo/foo-1.0.0.crate", none⟩,
    some "10.0.0.1", [], none, none⟩

def reqPlus : Request :=
  ⟨"GET", ⟨"https", "static.crates.io", "/crates/foo/foo-1.0%2Bbuild+meta.crate", none⟩,
    some "10.0.0.1", [], none, none⟩

def reqDbDump : Request :=
  ⟨"GET", ⟨"https", "static.crates.io", "/db-dump.tar.gz", none⟩,
    some "10.0.0.1", [], none, none⟩

def reqDbDumpQuery : Request :=
  ⟨"GET", ⟨"https", "static.crates.io", "/db-dump.tar.gz", some "foo=bar"⟩,
    some "10.0.0.1", [], none, none⟩

def reqDbDumpQuerySuffix : Request :=
  ⟨"GET", ⟨"https", "static.crates.io", "/db-dump.tar.gz", some "f=db-dump.tar.gz"⟩,
    some "10.0.0.1", [], none, none⟩

/-! Helper lemmas about the embedded operations. -/

theorem replace_plus_flatMap (l : List Char) :
    replace_plus l = l.flatMap (fun c => if c = '+' then ['%', '2', 'B'] else [c]) := by
  induction l with
  | nil => rfl
  | cons c rest ih => simp [replace_plus, ih, List.flatMap_cons]

theorem plus_not_mem_replace_plus (l : List Char) : '+' ∉ replace_plus l := by
  induction l with
  | nil => simp [replace_plus]
  | cons c rest ih =>
    by_cases hc : c = '+'
    · simpa [replace_plus, hc] using ih
    · simp [replace_plus, hc, ih]
      exact fun h => hc h.symm

theorem contains_eq_false_of_not_mem {l : List Char} {c : Char} (h : c ∉ l) :
    l.contains c = false := by
  simpa using h

theorem rewrite_urls_path (request : Request) (h : request.url.path.toList.contains '+' = true) :
    (rewrite_urls_with_plus_character request).url.path =
      ⟨replace_plus request.url.path.toList⟩ := by
  have h' : '+' ∈ request.url.path.data := by simpa using h
  simp [rewrite_urls_with_plus_character, h']

theorem rewrite_urls_of_no_plus (request : Request)
    (h : request.url.path.toList.contains '+' = false) :
    rewrite_urls_with_plus_character request = request := by
  have h' : '+' ∉ request.url.path.data := by simpa using h
  simp [rewrite_urls_with_plus_character, h']

theorem rewrite_urls_idempotent (request : Request) :
    rewrite_urls_with_plus_character (rewrite_urls_with_plus_character request) =
      rewrite_urls_with_plus_character request := by
  by_cases h : request.url.path.toList.contains '+'
  · apply rewrite_urls_of_no_plus
    rw [rewrite_urls_path request h]
    exact contains_eq_false_of_not_mem (plus_not_mem_replace_plus _)
  · rw [rewrite_urls_of_no_plus request (by simpa using h),
      rewrite_urls_of_no_plus request (by simpa using h)]

theorem rewrite_urls_preserves (request : Request) :
    (rewrite_urls_with_plus_character request).url.scheme = request.url.scheme ∧
    (rewrite_urls_with_plus_character request).url.host = request.url.host ∧
    (rewrite_urls_with_plus_character request).url.query = request.url.query ∧
    (rewrite_urls_with_plus_character request).method = request.method := by
  by_cases h : request.url.path.toList.contains '+'
  · have h' : '+' ∈ request.url.path.data := by simpa using h
    simp [rewrite_urls_with_plus_character, h']
  · rw [rewrite_urls_of_no_plus request (by simpa using h)]
    exact ⟨rfl, rfl, rfl, rfl⟩

theorem ends_with_iff {s suffix : String} :
    ends_with s suffix = true ↔ suffix.toList <:+ s.toList :=
  List.isSuffixOf_iff_suffix

theorem ends_with_append_left (a b suffix : String) (h : ends_with b suffix = true) :
    ends_with (a ++ b) suffix = true := by
  rw [ends_with_iff] at h ⊢
  have : (a ++ b).toList = a.toList ++ b.toList := String.data_append a b
  rw [this]
  exact h.trans (List.suffix_append _ _)

theorem get_url_str_of_query_none (r : Request) (h : r.url.query = none) :
    r.get_url_str = (r.url.scheme ++ "://" ++ r.url.host) ++ r.url.path := by
  simp [Request.get_url_str, Url.to_str, h, String.append_empty]

theorem set_header_status (r : Response) (n v : String) :
    (r.set_header n v).status = r.status := rfl

theorem set_header_body (r : Response) (n v : String) :
    (r.set_header n v).body = r.body := rfl

theorem set_header_content_length (r : Response) (n v : String) :
    (r.set_header n v).content_length = r.content_length := rfl

theorem find_filter_ne (l : List (String × String)) {m n : String} (hmn : m ≠ n) :
    (l.filter (fun h => h.1 ≠ n)).find? (fun h => h.1 == m) =
      l.find? (fun h => h.1 == m) := by
  induction l with
  | nil => rfl
  | cons c rest ih =>
    by_cases hc : c.1 = n
    · have hf : (c :: rest).filter (fun h => h.1 ≠ n) = rest.filter (fun h => h.1 ≠ n) := by
        simp [List.filter_cons, hc]
      have hcm : ¬((c.1 == m) = true) := by
        simp [hc]
        exact fun he => hmn he.symm
      rw [hf, ih]
      exact (@List.find?_cons_of_neg _ (fun h => h.1 == m) c rest hcm).symm
    · have hf : (c :: rest).filter (fun h => h.1 ≠ n) = c :: rest.filter (fun h => h.1 ≠ n) := by
        simp [List.filter_cons, hc]
      rw [hf]
      by_cases hcm : c.1 = m
      · rw [List.find?_cons_of_pos _ (by simp [hcm]), List.find?_cons_of_pos _ (by simp [hcm])]
      · rw [List.find?_cons_of_neg _ (by simp [hcm]), List.find?_cons_of_neg _ (by simp [hcm]),
          ih]

theorem get_header_set_header_self (r : Response) (n v : String) :
    (r.set_header n v).get_header n = some v := by
  unfold Response.set_header Response.get_header
  rw [List.find?_append]
  have hnone : (r.headers.filter (fun h => h.1 ≠ n)).find? (fun h => h.1 == n) = none := by
    rw [List.find?_eq_none]
    intro x hx
    rw [List.mem_filter] at hx
    simpa using hx.2
  simp [hnone, List.find?]

theorem get_header_set_header_ne (r : Response) {m n : String} (v : String) (hmn : m ≠ n) :
    (r.set_header n v).get_header m = r.get_header m := by
  unfold Response.set_header Response.get_header
  rw [List.find?_append, find_filter_ne r.headers hmn]
  have hnm : (n == m) = false := by
    simp
    exact fun he => hmn he.symm
  simp [List.find?, hnm]

theorem send_request_to_s3_error (config : Config) (net : Net) (request : Request) (e : Error)
    (h : net config.primary_host request.clone_without_body = .error e) :
    send_request_to_s3 config net request = ⟨.error e, [config.primary_host], []⟩ := by
  simp [send_request_to_s3, h]

theorem send_request_to_s3_ok_lt (config : Config) (net : Net) (request : Request) (r : Response)
    (h : net config.primary_host request.clone_without_body = .ok r) (hlt : r.status < 500) :
    send_request_to_s3 config net request = ⟨.ok r, [config.primary_host], []⟩ := by
  simp [send_request_to_s3, h, Nat.not_le.mpr hlt]

theorem send_request_to_s3_ok_ge (config : Config) (net : Net) (request : Request) (r : Response)
    (h : net config.primary_host request.clone_without_body = .ok r) (hge : 500 ≤ r.status) :
    (send_request_to_s3 config net request).contacts =
      [config.primary_host, config.fallback_host] ∧
    (send_request_to_s3 config net request).response =
      net config.fallback_host request.clone_without_body := by
  simp only [send_request_to_s3, h, hge, if_true]
  cases net config.fallback_host request.clone_without_body <;> exact ⟨rfl, rfl⟩

theorem send_request_to_s3_contacts_head (config : Config) (net : Net) (request : Request) :
    (send_request_to_s3 config net request).contacts.head? = some config.primary_host := by
  cases h : net config.primary_host request.clone_without_body with
  | error e =>
    rw [send_request_to_s3_error config net request e h]
    rfl
  | ok response =>
    by_cases hs : 500 ≤ response.status
    · rw [(send_request_to_s3_ok_ge config net request response h hs).1]
      rfl
    · rw [send_request_to_s3_ok_lt config net request response h (Nat.not_le.mp hs)]
      rfl

theorem limit_http_methods_of_get_or_head (request : Request)
    (hm : request.method = "GET" ∨ request.method = "HEAD") :
    limit_http_methods request = none := by
  rcases hm with hm | hm <;> simp [limit_http_methods, hm]

theorem handle_request_redirect (config : Config) (net : Net) (request : Request)
    (hl : limit_http_methods request = none)
    (h : ends_with (rewrite_urls_with_plus_character (set_ttl config request)).get_url_str
      "db-dump.tar.gz" = true) :
    handle_request config net request =
      ⟨.ok (Response.temporary_redirect
        ("https://" ++ config.cloudfront_url ++ "/db-dump.tar.gz")), [], []⟩ := by
  simp [handle_request, hl, h, redirect_db_dump_to_cloudfront]

theorem handle_request_forward (config : Config) (net : Net) (request : Request)
    (hl : limit_http_methods request = none)
    (h : ends_with (rewrite_urls_with_plus_character (set_ttl config request)).get_url_str
      "db-dump.tar.gz" = false) :
    handle_request config net request =
      send_request_to_s3 config net (rewrite_urls_with_plus_character (set_ttl config request)) := by
  simp [handle_request, hl, h]

theorem main_not_purge (config : Config) (net : Net) (now : Nat) (request : Request)
    (h : request.method ≠ "PURGE") :
    main config net now request =
      ⟨(if (request.get_header "Origin").isSome
          then add_cors_headers (handle_request config net request).response
          else (handle_request config net request).response),
       (handle_request config net request).contacts,
       (handle_request config net request).warnings.map LogEvent.originWarning ++
         [build_and_send_log
           (collect_response (collect_request now request)
             (if (request.get_header "Origin").isSome
               then add_cors_headers (handle_request config net request).response
               else (handle_request config net request).response)) config]⟩ := by
  simp [main, h]

/-! Claim theorems. -/

/-- C1 (counterexample): a transport-level failure sending to the primary origin
does not contact the fallback at all — `send_request_to_s3` propagates the
error via `?` with only the primary in the contact trace — refuting the claim
that the fallback is then contacted exactly once. -/
theorem C1_counterexample :
    (send_request_to_s3 cfgA netPrimaryDown reqCrate).contacts.count cfgA.fallback_host = 0 ∧
    (send_request_to_s3 cfgA netPrimaryDown reqCrate).response =
      .error ⟨"connection reset"⟩ := by
  constructor <;> rfl

/-- C1 (amended): if the primary origin returns a status ≥ 500 the fallback is
contacted exactly once and its result — success or failure — is the final
result regardless of its own status; if the send to the primary fails at the
transport level, the fallback is not contacted and the transport error is the
invocation's final result. -/
theorem C1_fallback_only_on_5xx (config : Config) (net : Net) (request : Request) :
    (∀ e, net config.primary_host request.clone_without_body = .error e →
      send_request_to_s3 config net request = ⟨.error e, [config.primary_host], []⟩) ∧
    (∀ r, net config.primary_host request.clone_without_body = .ok r → 500 ≤ r.status →
      (send_request_to_s3 config net request).contacts =
        [config.primary_host, config.fallback_host] ∧
      (send_request_to_s3 config net request).response =
        net config.fallback_host request.clone_without_body) :=
  ⟨fun e h => send_request_to_s3_error config net request e h,
   fun r h hge => send_request_to_s3_ok_ge config net request r h hge⟩

/-- C1 (witness): with the primary returning 503 and the fallback healthy, the
fallback is contacted once and its 200 response is the final result. -/
theorem C1_witness :
    (send_request_to_s3 cfgA netPrimary503 reqCrate).contacts =
      [cfgA.primary_host, cfgA.fallback_host] ∧
    (send_request_to_s3 cfgA netPrimary503 reqCrate).response = .ok resp200 := by
  have h := (C1_fallback_only_on_5xx cfgA netPrimary503 reqCrate).2 resp503 rfl (by decide)
  exact ⟨h.1, h.2.trans rfl⟩

/-- C5: if the primary origin answers with any status < 500, that exact
response is the result, the contact trace holds only the primary, and the
fallback host occurs zero times in it. -/
theorem C5_primary_success_no_fallback (config : Config) (net : Net) (request : Request)
    (r : Response) (h : net config.primary_host request.clone_without_body = .ok r)
    (hlt : r.status < 500) :
    send_request_to_s3 config net request = ⟨.ok r, [config.primary_host], []⟩ ∧
    (config.primary_host ≠ config.fallback_host →
      (send_request_to_s3 config net request).contacts.count config.fallback_host = 0) := by
  have he := send_request_to_s3_ok_lt config net request r h hlt
  refine ⟨he, fun hne => ?_⟩
  rw [he]
  simp [List.count_eq_zero]
  exact fun hc => hne hc.symm

/-- C5 (witness): applies the theorem at a healthy primary returning 200. -/
theorem C5_witness :
    send_request_to_s3 cfgA netOk reqCrate = ⟨.ok resp200, [cfgA.primary_host], []⟩ ∧
    (send_request_to_s3 cfgA netOk reqCrate).contacts.count cfgA.fallback_host = 0 := by
  have h := C5_primary_success_no_fallback cfgA netOk reqCrate resp200 rfl (by decide)
  exact ⟨h.1, h.2 (by decide)⟩

theorem to_str_of_query_none (u : Url) (h : u.query = none) :
    u.to_str = (u.scheme ++ "://" ++ u.host) ++ u.path := by
  simp [Url.to_str, h, String.append_empty]

theorem rewrite_urls_url (request : Request) :
    (rewrite_urls_with_plus_character request).url =
      if request.url.path.toList.contains '+'
      then { request.url with path := ⟨replace_plus request.url.path.toList⟩ }
      else request.url := by
  by_cases h : request.url.path.toList.contains '+'
  · have h' : '+' ∈ request.url.path.data := by simpa using h
    simp [rewrite_urls_with_plus_character, h', h]
  · have h' : '+' ∉ request.url.path.data := by simpa using h
    simp [h', rewrite_urls_of_no_plus request (by simpa using h)]

theorem rewrite_set_ttl_url (config : Config) (request : Request) :
    (rewrite_urls_with_plus_character (set_ttl config request)).url =
      (rewrite_urls_with_plus_character request).url := by
  rw [rewrite_urls_url, rewrite_urls_url]
  rfl

/-- C2 (counterexample): a GET request whose normalized path ends with
`db-dump.tar.gz` but which carries the query string `foo=bar` is forwarded to
the primary origin and answered by it, not redirected — refuting the claim
that every such request is redirected with no origin contact. -/
theorem C2_counterexample :
    reqDbDumpQuery.method = "GET" ∧
    ends_with (rewrite_urls_with_plus_character reqDbDumpQuery).url.path "db-dump.tar.gz"
      = true ∧
    (handle_request cfgA netOk reqDbDumpQuery).contacts = [cfgA.primary_host] ∧
    (handle_request cfgA netOk reqDbDumpQuery).response = .ok resp200 := by
  refine ⟨rfl, by decide, ?_, ?_⟩ <;> rfl

/-- C2 (amended): for every non-purge GET or HEAD request whose normalized
path ends with `db-dump.tar.gz` and which carries no query string, no origin
is contacted and the response is an HTTP 307 redirect whose Location is
`https://<distribution-host>/db-dump.tar.gz` built from the configured
CloudFront host. -/
theorem C2_db_dump_redirect (config : Config) (net : Net) (request : Request)
    (hm : request.method = "GET" ∨ request.method = "HEAD")
    (hq : request.url.query = none)
    (hpath : ends_with (rewrite_urls_with_plus_character request).url.path "db-dump.tar.gz"
      = true) :
    handle_request config net request =
      ⟨.ok (Response.temporary_redirect
        ("https://" ++ config.cloudfront_url ++ "/db-dump.tar.gz")), [], []⟩ := by
  apply handle_request_redirect config net request (limit_http_methods_of_get_or_head request hm)
  have hq' : (rewrite_urls_with_plus_character request).url.query = none :=
    ((rewrite_urls_preserves request).2.2.1).trans hq
  simp only [Request.get_url_str, rewrite_set_ttl_url]
  rw [to_str_of_query_none _ hq']
  exact ends_with_append_left _ _ _ hpath

/-- C2 (witness): applies the theorem to `GET /db-dump.tar.gz` with no query. -/
theorem C2_witness :
    handle_request cfgA netOk reqDbDump =
      ⟨.ok (Response.temporary_redirect
        ("https://" ++ cfgA.cloudfront_url ++ "/db-dump.tar.gz")), [], []⟩ :=
  C2_db_dump_redirect cfgA netOk reqDbDump (Or.inl rfl) rfl (by decide)

/-- C3 (counterexample): a GET request whose normalized path ends with
`db-dump.tar.gz` and which carries the non-empty query string
`f=db-dump.tar.gz` is redirected without contacting any origin — refuting the
claim's first half, which says every such request is forwarded to the primary
origin. -/
theorem C3_counterexample :
    reqDbDumpQuerySuffix.method = "GET" ∧
    ends_with (rewrite_urls_with_plus_character reqDbDumpQuerySuffix).url.path
      "db-dump.tar.gz" = true ∧
    reqDbDumpQuerySuffix.url.query.isSome = true ∧
    (handle_request cfgA netOk reqDbDumpQuerySuffix).contacts = [] ∧
    (handle_request cfgA netOk reqDbDumpQuerySuffix).response =
      .ok (Response.temporary_redirect "https://cloudfront.example/db-dump.tar.gz") := by
  refine ⟨rfl, by decide, rfl, ?_, ?_⟩ <;> rfl

/-- C3 (amended): the oversized-resource redirect decision is taken on the
full URL string: a GET or HEAD request whose URL string after normalization
ends with `db-dump.tar.gz` (whether via its path or its query string) is
redirected with no origin contact, and one whose URL string does not end with
that suffix — for example a path ending in `db-dump.tar.gz` joined with a
query string that does not — is forwarded to the origin logic, whose first
contact is the primary host. -/
theorem C3_url_string_decision (config : Config) (net : Net) (request : Request)
    (hm : request.method = "GET" ∨ request.method = "HEAD") :
    (ends_with (rewrite_urls_with_plus_character (set_ttl config request)).get_url_str
        "db-dump.tar.gz" = true →
      handle_request config net request =
        ⟨.ok (Response.temporary_redirect
          ("https://" ++ config.cloudfront_url ++ "/db-dump.tar.gz")), [], []⟩) ∧
    (ends_with (rewrite_urls_with_plus_character (set_ttl config request)).get_url_str
        "db-dump.tar.gz" = false →
      handle_request config net request =
        send_request_to_s3 config net
          (rewrite_urls_with_plus_character (set_ttl config request)) ∧
      (handle_request config net request).contacts.head? = some config.primary_host) := by
  have hl := limit_http_methods_of_get_or_head request hm
  refine ⟨fun h => handle_request_redirect config net request hl h, fun h => ?_⟩
  have hf := handle_request_forward config net request hl h
  refine ⟨hf, ?_⟩
  rw [hf]
  exact send_request_to_s3_contacts_head config net _

/-- C3 (witness): applies the theorem to a path ending in `db-dump.tar.gz`
with a query string, where the URL string does not end with the suffix and the
request is forwarded. -/
theorem C3_witness :
    handle_request cfgA netOk reqDbDumpQuery =
      send_request_to_s3 cfgA netOk
        (rewrite_urls_with_plus_character (set_ttl cfgA reqDbDumpQuery)) ∧
    (handle_request cfgA netOk reqDbDumpQuery).contacts.head? = some cfgA.primary_host :=
  (C3_url_string_decision cfgA netOk reqDbDumpQuery (Or.inl rfl)).2 (by decide)

/-- C4: a request whose method is none of GET, HEAD and PURGE receives a
synthesized response with status exactly 401 and body "Method not allowed",
and no origin is contacted. -/
theorem C4_method_not_allowed (config : Config) (net : Net) (now : Nat) (request : Request)
    (h1 : request.method ≠ "GET") (h2 : request.method ≠ "HEAD")
    (h3 : request.method ≠ "PURGE") :
    (main config net now request).response.toOption.map Response.status = some 401 ∧
    (main config net now request).response.toOption.map Response.body =
      some "Method not allowed" ∧
    (main config net now request).contacts = [] := by
  rw [main_not_purge config net now request h3]
  have hl : limit_http_methods request =
      some ((Response.from_body "Method not allowed").with_status 401) := by
    simp [limit_http_methods, h1, h2]
  have hh : handle_request config net request =
      ⟨.ok ((Response.from_body "Method not allowed").with_status 401), [], []⟩ := by
    simp [handle_request, hl]
  rw [hh]
  by_cases ho : (request.get_header "Origin").isSome <;>
    simp [ho, add_cors_headers, Except.toOption, Response.set_header, Response.with_status,
      Response.from_body]

/-- C4 (witness): applies the theorem to a POST request. -/
theorem C4_witness :
    (main cfgA netOk 0 reqPost).response.toOption.map Response.status = some 401 ∧
    (main cfgA netOk 0 reqPost).response.toOption.map Response.body =
      some "Method not allowed" ∧
    (main cfgA netOk 0 reqPost).contacts = [] :=
  C4_method_not_allowed cfgA netOk 0 reqPost (by decide) (by decide) (by decide)

/-- C6: for every request path containing a `+`, the normalized path contains
no `+` and equals the original with every `+` expanded to the three characters
`%2B`; applying the normalization a second time to any request is a no-op. -/
theorem C6_plus_normalization :
    (∀ request : Request, '+' ∈ request.url.path.toList →
      '+' ∉ (rewrite_urls_with_plus_character request).url.path.toList ∧
      (rewrite_urls_with_plus_character request).url.path.toList =
        request.url.path.toList.flatMap
          (fun c => if c = '+' then ['%', '2', 'B'] else [c])) ∧
    (∀ request : Request,
      rewrite_urls_with_plus_character (rewrite_urls_with_plus_character request) =
        rewrite_urls_with_plus_character request) := by
  constructor
  · intro request h
    have hc : request.url.path.toList.contains '+' = true := by simpa using h
    rw [rewrite_urls_path request hc]
    exact ⟨plus_not_mem_replace_plus _, replace_plus_flatMap _⟩
  · exact rewrite_urls_idempotent

/-- C6 (witness): applies the theorem to a path holding both a literal `+` and
an already-encoded `%2B`. -/
theorem C6_witness :
    '+' ∈ reqPlus.url.path.toList ∧
    '+' ∉ (rewrite_urls_with_plus_character reqPlus).url.path.toList ∧
    (rewrite_urls_with_plus_character reqPlus).url.path.toList =
      reqPlus.url.path.toList.flatMap
        (fun c => if c = '+' then ['%', '2', 'B'] else [c]) ∧
    rewrite_urls_with_plus_character (rewrite_urls_with_plus_character reqPlus) =
      rewrite_urls_with_plus_character reqPlus :=
  ⟨by decide, (C6_plus_normalization.1 reqPlus (by decide)).1,
    (C6_plus_normalization.1 reqPlus (by decide)).2, C6_plus_normalization.2 reqPlus⟩

theorem isFinalRecord_build_and_send_log (b : LogLineV1Builder) (config : Config) :
    (build_and_send_log b config).isFinalRecord = true := by
  unfold build_and_send_log
  cases b.build <;> rfl

theorem countP_originWarning (ws : List String) :
    (ws.map LogEvent.originWarning).countP LogEvent.isFinalRecord = 0 := by
  induction ws with
  | nil => rfl
  | cons w rest ih => simp [List.countP_cons, ih, LogEvent.isFinalRecord]

theorem countP_concat_final (ws : List String) (e : LogEvent) (he : e.isFinalRecord = true) :
    ((ws.map LogEvent.originWarning) ++ [e]).countP LogEvent.isFinalRecord = 1 := by
  rw [List.countP_append, countP_originWarning]
  simp [List.countP_cons, he]

theorem main_emitted_getLast (config : Config) (net : Net) (now : Nat) (request : Request)
    (h : request.method ≠ "PURGE") :
    (main config net now request).emitted.getLast? =
      some (build_and_send_log
        (collect_response (collect_request now request)
          (main config net now request).response) config) := by
  rw [main_not_purge config net now request h]
  exact List.getLast?_concat _

/-- C7: every non-purge invocation emits exactly one event that is a
structured request-log line or a serialization warning (the two outputs of
`build_and_send_log`), and the response returned to the client is exactly the
pipeline response — the CORS-decorated `handle_request` result — so the
logging outcome never changes it. -/
theorem C7_exactly_one_final_event (config : Config) (net : Net) (now : Nat)
    (request : Request) (h : request.method ≠ "PURGE") :
    (main config net now request).emitted.countP LogEvent.isFinalRecord = 1 ∧
    (main config net now request).response =
      (if (request.get_header "Origin").isSome
        then add_cors_headers (handle_request config net request).response
        else (handle_request config net request).response) := by
  rw [main_not_purge config net now request h]
  exact ⟨countP_concat_final _ _ (isFinalRecord_build_and_send_log _ _), rfl⟩

/-- C7 (witness): applies the theorem to a plain GET invocation. -/
theorem C7_witness :
    (main cfgA netOk 0 reqCrate).emitted.countP LogEvent.isFinalRecord = 1 ∧
    (main cfgA netOk 0 reqCrate).response =
      (if (reqCrate.get_header "Origin").isSome
        then add_cors_headers (handle_request cfgA netOk reqCrate).response
        else (handle_request cfgA netOk reqCrate).response) :=
  C7_exactly_one_final_event cfgA netOk 0 reqCrate (by decide)

/-- C8: the final log event of a non-purge invocation is a request-log line;
after a successful response it carries the request's method (non-null), the
response's status and its content length as the byte count; after an origin
transport failure it carries status 500 and a null byte count. -/
theorem C8_log_record_fields (config : Config) (net : Net) (now : Nat) (request : Request)
    (h : request.method ≠ "PURGE") :
    (∀ r, (main config net now request).response = .ok r →
      (main config net now request).emitted.getLast? =
        some (.requestLog config.request_logs_endpoint (LogLine.V1
          ⟨now, request.get_url_str, request.client_ip, some request.method,
            r.content_length, some r.status⟩))) ∧
    (∀ e, (main config net now request).response = .error e →
      (main config net now request).emitted.getLast? =
        some (.requestLog config.request_logs_endpoint (LogLine.V1
          ⟨now, request.get_url_str, request.client_ip, some request.method,
            none, some 500⟩))) := by
  constructor
  · intro r hr
    rw [main_emitted_getLast config net now request h, hr]
    rfl
  · intro e he
    rw [main_emitted_getLast config net now request h, he]
    rfl

/-- C8 (witness): a GET invocation answered 200 by the primary origin logs
method GET, status 200 and the response's content length. -/
theorem C8_witness :
    (main cfgA netOk 0 reqCrate).emitted.getLast? =
      some (.requestLog cfgA.request_logs_endpoint (LogLine.V1
        ⟨0, reqCrate.get_url_str, reqCrate.client_ip, some reqCrate.method,
          resp200.content_length, some resp200.status⟩)) :=
  (C8_log_record_fields cfgA netOk 0 reqCrate (by decide)).1 resp200 rfl

/-- C9: CORS injection sets the three headers with their exact values on a
successful response and never alters its status or body; on a failure result
it is a no-op; and for a non-purge request without an `Origin` header the
response is exactly the `handle_request` result, with none of the headers
added. -/
theorem C9_cors_headers (config : Config) (net : Net) (now : Nat) (request : Request) :
    (∀ r : Response, ∃ r' : Response, add_cors_headers (.ok r) = .ok r' ∧
      r'.get_header "Access-Control-Allow-Origin" = some "*" ∧
      r'.get_header "Access-Control-Allow-Methods" = some "GET" ∧
      r'.get_header "Access-Control-Max-Age" = some "3000" ∧
      r'.status = r.status ∧ r'.body = r.body) ∧
    (∀ e : Error, add_cors_headers (.error e) = .error e) ∧
    (request.method ≠ "PURGE" → request.get_header "Origin" = none →
      (main config net now request).response = (handle_request config net request).response) := by
  refine ⟨?_, fun e => rfl, fun hp ho => ?_⟩
  · intro r
    refine ⟨_, rfl, ?_, ?_, ?_, rfl, rfl⟩
    · rw [get_header_set_header_ne _ _
          (show ("Access-Control-Allow-Origin" : String) ≠ "Access-Control-Max-Age" by decide),
        get_header_set_header_ne _ _
          (show ("Access-Control-Allow-Origin" : String) ≠ "Access-Control-Allow-Methods"
            by decide),
        get_header_set_header_self]
    · rw [get_header_set_header_ne _ _
          (show ("Access-Control-Allow-Methods" : String) ≠ "Access-Control-Max-Age" by decide),
        get_header_set_header_self]
    · rw [get_header_set_header_self]
  · rw [main_not_purge config net now request hp]
    simp [ho]

/-- C9 (witness): applies the theorem to a failure result and to a GET
request without an `Origin` header. -/
theorem C9_witness :
    add_cors_headers (.error ⟨"connection reset"⟩) = .error ⟨"connection reset"⟩ ∧
    (main cfgA netOk 0 reqCrate).response = (handle_request cfgA netOk reqCrate).response :=
  ⟨(C9_cors_headers cfgA netOk 0 reqCrate).2.1 ⟨"connection reset"⟩,
    (C9_cors_headers cfgA netOk 0 reqCrate).2.2 (by decide) rfl⟩

/-- C10: a PURGE request is handed unmodified to the primary/fallback origin
logic — no method filtering, no TTL, no path rewriting, no CORS — its result
is returned as-is, and no log event of any kind is emitted. -/
theorem C10_purge_forward (config : Config) (net : Net) (now : Nat) (request : Request)
    (h : request.method = "PURGE") :
    main config net now request =
      ⟨(send_request_to_s3 config net request).response,
       (send_request_to_s3 config net request).contacts, []⟩ := by
  simp [main, h]

/-- C10 (witness): applies the theorem to `PURGE /crates/foo/foo-1.0.0.crate`. -/
theorem C10_witness :
    main cfgA netOk 0 reqPurge = ⟨.ok resp200, [cfgA.primary_host], []⟩ := by
  rw [C10_purge_forward cfgA netOk 0 reqPurge rfl]
  rfl

end ComputeStatic
